import Mathlib

/-!
Verification development for the cinder-operator CinderAPI component
(`pkg/cinderapi/statefuleset.go` and the CinderAPI controller file).

The Go source is shallowly embedded: pure construction code (the
`StatefulSet` builder) becomes a Lean function; the controller's
reconciliation handlers become state-passing functions over an explicit
`Env` record of collaborator behaviours (object-store client, secret
accessor, config-map ensurer, endpoint exposer, identity-service client,
deployment applier), returning the control result, the Go error, the
mutated instance and the ordered trace of external calls and log lines.

Definitions whose Go source is part of this repository but outside the
provided sources (constants from `pkg/cinder`, volume helpers from other
`pkg/cinderapi` files) or part of external collaborator libraries
(lib-common, keystone client) are modelled from the specification and
carry a doc comment saying so.
-/

namespace CinderVerify

/-- Go `error` values as the controller distinguishes them: the only test
applied is `k8s_errors.IsNotFound`; every other error is opaque with a
message. -/
inductive GoError where
  | notFound : GoError
  | err : String → GoError
deriving DecidableEq, Repr

/-- Model of `ctrl.Result`: compared in the Go code against the zero value
`ctrl.Result{}`. `RequeueAfter` is modelled in seconds. -/
structure CtrlResult where
  requeue : Bool := false
  requeueAfterSeconds : Nat := 0
deriving DecidableEq, Repr

/-- The external calls and log lines a reconciliation pass emits, in
program order. -/
inductive Call where
  | logInfo : String → Call
  | updateResource : Call
  | statusUpdate : Call
  | getSecret : String → Call
  | ensureConfigMaps : Call
  | getConfigMaps : List String → Call
  | exposeEndpoints : String → Call
  | ksDelete : String → Call
  | ksCreateOrPatch : String → Call
  | deplCreateOrPatch : Call
deriving DecidableEq, Repr

/-- Insert-or-replace for association-list maps (Go `m[k] = v`). -/
def mapSet {α : Type} (m : List (String × α)) (k : String) (v : α) :
    List (String × α) :=
  match m with
  | [] => [(k, v)]
  | (k', v') :: rest =>
    if k' = k then (k, v) :: rest else (k', v') :: mapSet rest k v

/-- Go map lookup (`v, ok := m[k]`). -/
def mapGet {α : Type} (m : List (String × α)) (k : String) : Option α :=
  match m with
  | [] => none
  | (k', v') :: rest => if k' = k then some v' else mapGet rest k

/-! ## Kubernetes object shapes used by the builder -/

/-- Model of `corev1.URIScheme`: the zero value is the empty string; the builder
only ever upgrades it to HTTPS. -/
inductive URIScheme where
  | default : URIScheme
  | https : URIScheme
deriving DecidableEq, Repr

/-- Model of `corev1.HTTPGetAction` (fields the builder sets). -/
structure HTTPGetAction where
  path : String
  port : Nat
  scheme : URIScheme
deriving DecidableEq, Repr

/-- Model of `corev1.Probe` (fields the builder sets). -/
structure Probe where
  timeoutSeconds : Nat
  periodSeconds : Nat
  initialDelaySeconds : Nat
  exec : Option (List String)
  httpGet : Option HTTPGetAction
deriving DecidableEq, Repr

/-- A pod volume; only identity matters to the claims, so volumes are
carried as names. -/
structure Volume where
  name : String
deriving DecidableEq, Repr

/-- A container volume mount, carried as a name. -/
structure VolumeMount where
  name : String
deriving DecidableEq, Repr

/-- Model of `corev1.Container` (fields the builder sets). -/
structure Container where
  name : String
  command : List String
  args : List String
  image : String
  runAsUser : Int
  env : List (String × String)
  volumeMounts : List VolumeMount
  resources : String
  readinessProbe : Option Probe
  livenessProbe : Option Probe
deriving DecidableEq, Repr

/-- Model of `corev1.PodSpec` (fields the builder sets). -/
structure PodSpec where
  serviceAccountName : String
  containers : List Container
  affinity : String
  nodeSelector : List (String × String)
  volumes : List Volume
deriving DecidableEq, Repr

/-- Model of `appsv1.StatefulSet` (fields the builder sets). -/
structure StatefulSetObj where
  name : String
  ns : String
  labels : List (String × String)
  selectorMatchLabels : List (String × String)
  replicas : Option Int
  templateAnnotations : List (String × String)
  templateLabels : List (String × String)
  podSpec : PodSpec
deriving DecidableEq, Repr

/-! ## Declared resource (CinderAPI custom resource) -/

instance exceptDecEq {ε α : Type} [DecidableEq ε] [DecidableEq α] :
    DecidableEq (Except ε α) := fun a b =>
  match a, b with
  | Except.ok x, Except.ok y =>
    if h : x = y then isTrue (by rw [h]) else isFalse (by simp [h])
  | Except.error x, Except.error y =>
    if h : x = y then isTrue (by rw [h]) else isFalse (by simp [h])
  | Except.ok _, Except.error _ => isFalse (by simp)
  | Except.error _, Except.ok _ => isFalse (by simp)

/-- lib-common `tls.GenericService` for one endpoint, together with the
per-endpoint enable flag the builder reads through
`instance.Spec.TLS.API.Enabled(endpt)`. `ToService` is an external
rendering step that can fail; its outcome is carried as data. -/
structure GenericService where
  enabled : Bool
  toService : Except String Volume
deriving DecidableEq, Repr

/-- Model of `tls.APIService`: public and internal endpoint TLS configuration. -/
structure TLSAPI where
  public : GenericService
  internal : GenericService
deriving DecidableEq, Repr

/-- Model of `Spec.TLS`: API endpoint TLS plus the optional CA bundle secret. -/
structure TLSSpec where
  api : TLSAPI
  caBundleSecretName : String
deriving DecidableEq, Repr

/-- Model of `Spec.Debug` (field consumed: `Service`). -/
structure DebugSpec where
  service : Bool
deriving DecidableEq, Repr

/-- Model of `Spec.PasswordSelectors` (field consumed: `Service`). -/
structure PasswordSelectors where
  service : String
deriving DecidableEq, Repr

/-- Model of `CinderAPISpec`: the fields this code consumes. -/
structure CinderAPISpec where
  debug : DebugSpec
  tls : TLSSpec
  extraMounts : List String
  replicas : Option Int
  containerImage : String
  resources : String
  nodeSelector : List (String × String)
  serviceAccount : String
  secret : String
  serviceUser : String
  passwordSelectors : PasswordSelectors
  customServiceConfig : String
  defaultConfigOverwrite : List (String × String)
deriving DecidableEq, Repr

/-- A status condition; its content is never inspected by this code, only
nil-ness of the list, so it is carried as a string. -/
abbrev Condition := String

/-- Model of `CinderAPIStatus`. `Option` distinguishes Go nil maps from empty
maps, which the initialization logic and the delete path test. -/
structure CinderAPIStatus where
  conditions : Option (List Condition)
  hash : Option (List (String × String))
  apiEndpoints : Option (List (String × List (String × String)))
  serviceIDs : Option (List (String × String))
  readyCount : Int
deriving DecidableEq, Repr

/-- The CinderAPI custom resource as the controller sees it. The
`owningCinderName` field carries the value of `cinder.GetOwningCinderName`
(computed from labels by repository code outside the provided sources). -/
structure CinderAPIInstance where
  name : String
  ns : String
  kind : String
  deletionTimestampSet : Bool
  finalizers : List String
  owningCinderName : String
  spec : CinderAPISpec
  status : CinderAPIStatus
deriving DecidableEq, Repr

/-! ## Constants -/

/-- Constant `ServiceCommand` from `pkg/cinderapi/statefuleset.go`. -/
def ServiceCommand : String :=
  "/usr/local/bin/kolla_set_configs && /usr/local/bin/kolla_start"

/-- Modelled from the spec: lib-common `common.DebugCommand`, the
"debug: keep container alive" entrypoint (external constant; exact value
immaterial to the claims). -/
def DebugCommand : String := "/bin/sleep infinity"

/-- Modelled from the spec: `cinder.CinderAdminPort` from `pkg/cinder`
(not under the provided sources); one of the three fixed ports. -/
def CinderAdminPort : Nat := 8774

/-- Modelled from the spec: `cinder.CinderPublicPort` from `pkg/cinder`
(not under the provided sources); the fixed public port the health
probes target. -/
def CinderPublicPort : Nat := 8776

/-- Modelled from the spec: `cinder.CinderInternalPort` from
`pkg/cinder` (not under the provided sources). -/
def CinderInternalPort : Nat := 8778

/-- Modelled from the spec: `ComponentName` from another `pkg/cinderapi`
file (not under the provided sources); the primary container name. -/
def ComponentName : String := "cinder-api"

/-- Modelled from the spec: `LogFile`, the fixed log file path the
sidecar tails (repository constant not under the provided sources). -/
def LogFile : String := "/var/log/cinder/cinder-api.log"

/-- Modelled from the spec: `cinder.ServiceName` from `pkg/cinder`. -/
def ServiceName : String := "cinder"

/-- Modelled from the spec: `cinder.ServiceNameV2`, the logical name of
the "V2" API facade. -/
def ServiceNameV2 : String := "cinderv2"

/-- Modelled from the spec: `cinder.ServiceNameV3`, the logical name of
the "V3" API facade. -/
def ServiceNameV3 : String := "cinderv3"

/-- Modelled from the spec: `cinder.ServiceTypeV2`. -/
def ServiceTypeV2 : String := "volumev2"

/-- Modelled from the spec: `cinder.ServiceTypeV3`. -/
def ServiceTypeV3 : String := "volumev3"

/-- Modelled from the spec: lib-common `common.InputHashName`, the fixed
key the aggregate input hash is stored under in `Status.Hash`. -/
def InputHashName : String := "input"

/-- Modelled from the spec: lib-common `common.CustomServiceConfigFileName`,
the key for the single custom-config blob. -/
def CustomServiceConfigFileName : String := "custom.conf"

/-- Modelled from the spec: lib-common `common.AppSelector` label key. -/
def AppSelector : String := "service"

/-- Modelled from the spec: the finalizer string lib-common
`helper.GetFinalizer()` returns for this kind. -/
def FinalizerName : String := "CinderAPI"

/-! ## StatefulSet builder helpers

The volume helpers live in other `pkg/cinderapi` files and in lib-common,
outside the provided sources; they are modelled from the spec as total
functions assembling named volumes (spec 4.1: the volume/mount list is a
deterministic concatenation of base extra-mounts material, an optional
CA-bundle volume, and per-endpoint TLS material). -/

/-- Modelled from the spec: `GetVolumes` — base volumes derived from the
resource's extra-mounts declarations; total. -/
def GetVolumes (owningCinderName instanceName : String)
    (extraMounts : List String) : List Volume :=
  Volume.mk (owningCinderName ++ "-base") :: Volume.mk (instanceName ++ "-logs")
    :: extraMounts.map Volume.mk

/-- Modelled from the spec: `GetVolumeMounts` — base mounts derived from
the extra-mounts declarations; total. -/
def GetVolumeMounts (extraMounts : List String) : List VolumeMount :=
  VolumeMount.mk "config-data" :: extraMounts.map VolumeMount.mk

/-- Modelled from the spec: `GetLogVolumeMount` — the sidecar's log
volume mount; total. -/
def GetLogVolumeMount : VolumeMount := VolumeMount.mk "logs"

/-- Modelled from the spec: lib-common `TLS.CreateVolume` — the CA
bundle volume; total. -/
def caCreateVolume (t : TLSSpec) : Volume :=
  Volume.mk t.caBundleSecretName

/-- Modelled from the spec: lib-common `TLS.CreateVolumeMounts(nil)`;
total. -/
def caCreateVolumeMounts (t : TLSSpec) : List VolumeMount :=
  [VolumeMount.mk t.caBundleSecretName]

/-- Modelled from the spec: lib-common `Service.CreateVolume(prefix_)` on
a rendered TLS service; total. The rendered service is carried as the
volume `ToService` produced. -/
def svcCreateVolume (svc : Volume) (endptName : String) : Volume :=
  Volume.mk (endptName ++ "-tls-" ++ svc.name)

/-- Modelled from the spec: lib-common `Service.CreateVolumeMounts`;
total. -/
def svcCreateVolumeMounts (svc : Volume) (endptName : String) :
    List VolumeMount :=
  [VolumeMount.mk (endptName ++ "-tls-" ++ svc.name)]

/-- Modelled from the spec: `cinder.GetPodAffinity` — a fixed affinity
derived from the component name; total. -/
def GetPodAffinity (componentName : String) : String :=
  "anti-affinity-" ++ componentName

/-- Model of `cinder.GetOwningCinderName` (repository code outside the provided
sources): the parent Cinder CR name, carried on the instance model. -/
def GetOwningCinderName (inst : CinderAPIInstance) : String :=
  inst.owningCinderName

/-! ## The StatefulSet builder (`StatefulSet` in statefuleset.go) -/

/-- Embedding of the `StatefulSet` builder: renders the two-container pod
template. Fails exactly where the Go code returns a non-nil error: when
`ToService` of a TLS-enabled endpoint fails (endpoints tried in order
internal, public). -/
def StatefulSet (inst : CinderAPIInstance) (configHash : String)
    (labels annotations : List (String × String)) :
    Except String StatefulSetObj :=
  let runAsUser : Int := 0
  let livenessProbe0 : Probe :=
    { timeoutSeconds := 5, periodSeconds := 3, initialDelaySeconds := 5,
      exec := none, httpGet := none }
  let readinessProbe0 : Probe :=
    { timeoutSeconds := 5, periodSeconds := 5, initialDelaySeconds := 5,
      exec := none, httpGet := none }
  let argsProbes :=
    if inst.spec.debug.service then
      (["-c", DebugCommand],
       { livenessProbe0 with exec := some ["/bin/true"] },
       { readinessProbe0 with exec := some ["/bin/true"] })
    else
      let httpGet : HTTPGetAction :=
        { path := "/healthcheck", port := CinderPublicPort,
          scheme :=
            if inst.spec.tls.api.public.enabled then URIScheme.https
            else URIScheme.default }
      (["-c", ServiceCommand],
       { livenessProbe0 with httpGet := some httpGet },
       { readinessProbe0 with httpGet := some httpGet })
  let args := argsProbes.1
  let livenessProbe := argsProbes.2.1
  let readinessProbe := argsProbes.2.2
  let volumes := GetVolumes (GetOwningCinderName inst) inst.name
    inst.spec.extraMounts
  let volumeMounts := GetVolumeMounts inst.spec.extraMounts
  let vols1 :=
    if inst.spec.tls.caBundleSecretName ≠ "" then
      (volumes ++ [caCreateVolume inst.spec.tls],
       volumeMounts ++ caCreateVolumeMounts inst.spec.tls)
    else (volumes, volumeMounts)
  do
  let vols2 ←
    if inst.spec.tls.api.internal.enabled then
      match inst.spec.tls.api.internal.toService with
      | Except.error e => Except.error e
      | Except.ok svc =>
        Except.ok (vols1.1 ++ [svcCreateVolume svc "internal"],
          vols1.2 ++ svcCreateVolumeMounts svc "internal")
    else Except.ok vols1
  let vols3 ←
    if inst.spec.tls.api.public.enabled then
      match inst.spec.tls.api.public.toService with
      | Except.error e => Except.error e
      | Except.ok svc =>
        Except.ok (vols2.1 ++ [svcCreateVolume svc "public"],
          vols2.2 ++ svcCreateVolumeMounts svc "public")
    else Except.ok vols2
  let envVars : List (String × String) :=
    [("KOLLA_CONFIG_STRATEGY", "COPY_ALWAYS"), ("CONFIG_HASH", configHash)]
  Except.ok
    { name := inst.name
      ns := inst.ns
      labels := labels
      selectorMatchLabels := labels
      replicas := inst.spec.replicas
      templateAnnotations := annotations
      templateLabels := labels
      podSpec :=
        { serviceAccountName := inst.spec.serviceAccount
          containers :=
            [{ name := inst.name ++ "-log"
               command := ["/usr/bin/dumb-init"]
               args := ["--single-child", "--", "/usr/bin/tail", "-n+1",
                 "-F", LogFile]
               image := inst.spec.containerImage
               runAsUser := runAsUser
               env := envVars
               volumeMounts := [GetLogVolumeMount]
               resources := inst.spec.resources
               readinessProbe := none
               livenessProbe := none },
             { name := ComponentName
               command := ["/bin/bash"]
               args := args
               image := inst.spec.containerImage
               runAsUser := runAsUser
               env := envVars
               volumeMounts := vols3.2
               resources := inst.spec.resources
               readinessProbe := some readinessProbe
               livenessProbe := some livenessProbe }]
          affinity := GetPodAffinity ComponentName
          nodeSelector := inst.spec.nodeSelector
          volumes := vols3.1 } }

/-! ## Controller embedding

The CinderAPI controller's handlers are embedded as state-passing
functions over an `Env` of collaborator behaviours. Each handler returns
the `ctrl.Result`, the Go error, the (possibly mutated) instance, and the
ordered trace of external calls and log lines it emitted. -/

/-- Model of `endpoint.Endpoint` / `service.Endpoint` scopes. -/
inductive Endpoint where
  | admin : Endpoint
  | public : Endpoint
  | internal : Endpoint
deriving DecidableEq, Repr

/-- Model of `endpoint.EndpointData`: port and path template for one scope. -/
structure EndpointData where
  port : Nat
  path : String
deriving DecidableEq, Repr

/-- Result shape of lib-common `endpoint.ExposeEndpoints`: the scope→URL
map, a control result (non-zero means "not ready yet") and an error. -/
structure ExposeOut where
  endpoints : List (String × String)
  result : CtrlResult
  error : Option GoError
deriving DecidableEq, Repr

/-- Result shape of the keystone client's `CreateOrPatch` together with
the opaque service id subsequently read via `GetServiceID`. -/
structure KsOut where
  result : CtrlResult
  error : Option GoError
  serviceID : String
deriving DecidableEq, Repr

/-- Result shape of the deployment applier's `CreateOrPatch` together
with the observed ready-replica count. -/
structure DeplOut where
  result : CtrlResult
  error : Option GoError
  readyReplicas : Int
deriving DecidableEq, Repr

/-- Model of `keystonev1.KeystoneServiceSpec` as this controller fills it. -/
structure KeystoneServiceSpec where
  serviceType : String
  serviceName : String
  serviceDescription : String
  enabled : Bool
  apiEndpoints : Option (List (String × String))
  serviceUser : String
  secret : String
  passwordSelector : String
deriving DecidableEq, Repr

/-- Model of `util.Template` as `generateServiceConfigMaps` fills it. -/
structure Template where
  name : String
  ns : String
  instanceType : String
  customData : List (String × String)
  labels : List (String × String)
deriving DecidableEq, Repr

/-- The collaborator behaviours one reconciliation pass observes. Each
field is the outcome of the corresponding external call; call sites that
the Go code reaches twice with possibly different cluster state have
separate fields (`getSecret` in `reconcileNormal`, `getSecretInit` in
`reconcileInit`). -/
structure Env where
  getInstance : Except GoError CinderAPIInstance
  updateResource : CinderAPIInstance → Option GoError
  statusUpdate : CinderAPIInstance → Option GoError
  getSecret : String → Except GoError String
  getSecretInit : String → Except GoError String
  ensureConfigMaps : List Template → Except GoError (List (String × String))
  getConfigMaps : List String → Except GoError (List (String × String))
  objectHash : List (String × String) → Except GoError String
  exposeEndpoints : List (Endpoint × EndpointData) → ExposeOut
  ksCreateOrPatch : KeystoneServiceSpec → KsOut
  ksDelete : KeystoneServiceSpec → Option GoError
  deplCreateOrPatch : String → DeplOut

/-- Outcome of one handler: control result, error, mutated instance, and
the ordered trace of calls and log lines. -/
structure Out where
  result : CtrlResult
  error : Option GoError
  inst : CinderAPIInstance
  calls : List Call
deriving DecidableEq, Repr

/-- Model of `controllerutil.AddFinalizer`: append if not already present. -/
def addFinalizer (fins : List String) (f : String) : List String :=
  if f ∈ fins then fins else fins ++ [f]

/-- Model of `controllerutil.RemoveFinalizer`: drop every occurrence. -/
def removeFinalizer (fins : List String) (f : String) : List String :=
  fins.filter (fun g => g ≠ f)

/-- Modelled from the spec: lib-common `util.SetHash` — record `v` under
key `k`, reporting whether the stored value changed (key absent or value
different). A nil map is replaced by a fresh one. -/
def setHash (m : Option (List (String × String))) (k v : String) :
    List (String × String) × Bool :=
  let m' := m.getD []
  match mapGet m' k with
  | some cur => if cur = v then (m', false) else (mapSet m' k v, true)
  | none => (mapSet m' k v, true)

/-- Modelled from the spec: lib-common `env.MergeEnvs` over an empty
base list — the recorded name/hash pairs themselves. -/
def mergeEnvs (vars : List (String × String)) : List (String × String) :=
  vars

/-- The `keystoneServices` table: (type, name, description) for the two
API facades, in declared order. -/
def keystoneServices : List (String × String × String) :=
  [(ServiceTypeV2, ServiceNameV2, "Cinder V2 Service"),
   (ServiceTypeV3, ServiceNameV3, "Cinder V3 Service")]

/-- The `KeystoneServiceSpec` both the delete path and the init path
build for one facade (Go indexing of a possibly-nil outer map yields a
nil inner map, hence the `getD`). -/
def ksServiceSpec (inst : CinderAPIInstance) (ty nm desc : String) :
    KeystoneServiceSpec :=
  { serviceType := ty
    serviceName := nm
    serviceDescription := desc
    enabled := true
    apiEndpoints := mapGet (inst.status.apiEndpoints.getD []) nm
    serviceUser := inst.spec.serviceUser
    secret := inst.spec.secret
    passwordSelector := inst.spec.passwordSelectors.service }

/-- The status-initialization block at the top of `Reconcile`: each of
the four sub-maps is set to empty exactly when nil. -/
def initStatus (st : CinderAPIStatus) : CinderAPIStatus :=
  let st1 := if st.conditions.isNone then { st with conditions := some [] } else st
  let st2 := if st1.hash.isNone then { st1 with hash := some [] } else st1
  let st3 :=
    if st2.apiEndpoints.isNone then { st2 with apiEndpoints := some [] } else st2
  if st3.serviceIDs.isNone then { st3 with serviceIDs := some [] } else st3

/-- Modelled from the spec: lib-common `labels.GetLabels` — ownership
labels for the generated config map. -/
def cmLabelsFor (inst : CinderAPIInstance) : List (String × String) :=
  [(ServiceName ++ ".openstack.org/owner-name", GetOwningCinderName inst)]

/-- The `customData` map `generateServiceConfigMaps` assembles: the
custom-config blob under the fixed file name, then the named overrides,
then the blob re-asserted. -/
def customDataFor (inst : CinderAPIInstance) : List (String × String) :=
  let m : List (String × String) :=
    [(CustomServiceConfigFileName, inst.spec.customServiceConfig)]
  let m1 := inst.spec.defaultConfigOverwrite.foldl
    (fun acc kv => mapSet acc kv.1 kv.2) m
  mapSet m1 CustomServiceConfigFileName inst.spec.customServiceConfig

/-- The single config-map template `generateServiceConfigMaps` builds. -/
def serviceConfigTemplates (inst : CinderAPIInstance) : List Template :=
  [{ name := inst.name ++ "-config-data"
     ns := inst.ns
     instanceType := inst.kind
     customData := customDataFor inst
     labels := cmLabelsFor inst }]

/-- Outcome of `generateServiceConfigMaps`: the returned error, the
env-var entries added to the caller's map, and the emitted trace. -/
structure CfgOut where
  error : Option GoError
  vars : List (String × String)
  calls : List Call
deriving DecidableEq, Repr

/-- Embedding of `generateServiceConfigMaps`: builds the template and
calls the config-map ensurer; a failure of the ensurer is swallowed (the
function returns nil in both branches) and nothing is logged. -/
def generateServiceConfigMaps (env : Env) (inst : CinderAPIInstance) :
    CfgOut :=
  let cms := serviceConfigTemplates inst
  match env.ensureConfigMaps cms with
  | Except.error _ => ⟨none, [], [Call.ensureConfigMaps]⟩
  | Except.ok vs => ⟨none, vs, [Call.ensureConfigMaps]⟩

/-- Outcome of `createHashOfInputHashes`: the hash, the error, the
mutated instance and the emitted trace. -/
structure HashOut where
  hash : String
  error : Option GoError
  inst : CinderAPIInstance
  calls : List Call
deriving DecidableEq, Repr

/-- Embedding of `createHashOfInputHashes`: hash the merged recorded
input hashes; when the stored value under the fixed key changed, write
it to status and issue an immediate status update. -/
def createHashOfInputHashes (env : Env) (inst : CinderAPIInstance)
    (envVars : List (String × String)) : HashOut :=
  let merged := mergeEnvs envVars
  match env.objectHash merged with
  | Except.error e => ⟨"", some e, inst, []⟩
  | Except.ok h =>
    let hm := setHash inst.status.hash InputHashName h
    if hm.2 then
      let inst' :=
        { inst with status := { inst.status with hash := some hm.1 } }
      match env.statusUpdate inst' with
      | some e => ⟨h, some e, inst', [Call.statusUpdate]⟩
      | none =>
        ⟨h, none, inst',
          [Call.statusUpdate,
           Call.logInfo ("Input maps hash " ++ InputHashName ++ " - " ++ h)]⟩
    else ⟨h, none, inst, []⟩

/-- The `for _, ksSvc := range keystoneServices` deregistration loop of
`reconcileDelete`: stops at the first failing delete. -/
def deleteKeystoneServices (env : Env) (inst : CinderAPIInstance) :
    List (String × String × String) → Option GoError × List Call
  | [] => (none, [])
  | (ty, nm, desc) :: rest =>
    match env.ksDelete (ksServiceSpec inst ty nm desc) with
    | some e => (some e, [Call.ksDelete nm])
    | none =>
      let r := deleteKeystoneServices env inst rest
      (r.1, Call.ksDelete nm :: r.2)

/-- Embedding of `reconcileDelete`: deregister the keystone services
when `Status.APIEndpoints` is non-nil, then remove the finalizer and
persist; a not-found error on that persist is swallowed. -/
def reconcileDelete (env : Env) (inst : CinderAPIInstance) : Out :=
  let calls0 := [Call.logInfo "Reconciling Service delete"]
  let afterLoop : Option GoError × List Call :=
    match inst.status.apiEndpoints with
    | none => (none, [])
    | some _ => deleteKeystoneServices env inst keystoneServices
  match afterLoop with
  | (some e, cs) => ⟨{}, some e, inst, calls0 ++ cs⟩
  | (none, cs) =>
    let inst' :=
      { inst with finalizers := removeFinalizer inst.finalizers FinalizerName }
    let calls := calls0 ++ cs ++
      [Call.logInfo "Reconciled Service delete successfully",
       Call.updateResource]
    match env.updateResource inst' with
    | some GoError.notFound => ⟨{}, none, inst', calls⟩
    | some e => ⟨{}, some e, inst', calls⟩
    | none => ⟨{}, none, inst', calls⟩

/-- The V2 facade's endpoint data map (admin, public, internal). -/
def v2EndpointData : List (Endpoint × EndpointData) :=
  [(Endpoint.admin, ⟨CinderAdminPort, "/v2/%(project_id)s"⟩),
   (Endpoint.public, ⟨CinderPublicPort, "/v2/%(project_id)s"⟩),
   (Endpoint.internal, ⟨CinderInternalPort, "/v2/%(project_id)s"⟩)]

/-- The V3 facade's endpoint data map (admin, public, internal). -/
def v3EndpointData : List (Endpoint × EndpointData) :=
  [(Endpoint.admin, ⟨CinderAdminPort, "/v3/%(project_id)s"⟩),
   (Endpoint.public, ⟨CinderPublicPort, "/v3/%(project_id)s"⟩),
   (Endpoint.internal, ⟨CinderInternalPort, "/v3/%(project_id)s"⟩)]

/-- The `for _, ksSvc := range keystoneServices` registration loop of
`reconcileInit`: create-or-patch each facade's keystone service, storing
the returned service id in status; stops on error or non-zero result. -/
def createKeystoneServices (env : Env) :
    CinderAPIInstance → List (String × String × String) → Out
  | inst, [] => ⟨{}, none, inst, []⟩
  | inst, (ty, nm, desc) :: rest =>
    let k := env.ksCreateOrPatch (ksServiceSpec inst ty nm desc)
    match k.error with
    | some e => ⟨k.result, some e, inst, [Call.ksCreateOrPatch nm]⟩
    | none =>
      if k.result = ({} : CtrlResult) then
        let ids := some (mapSet (inst.status.serviceIDs.getD []) nm k.serviceID)
        let inst' :=
          { inst with status := { inst.status with serviceIDs := ids } }
        let r := createKeystoneServices env inst' rest
        ⟨r.result, r.error, r.inst, Call.ksCreateOrPatch nm :: r.calls⟩
      else ⟨k.result, none, inst, [Call.ksCreateOrPatch nm]⟩

/-- Embedding of `reconcileInit`: expose the V2 and V3 endpoints,
re-fetch the credentials secret, then register the keystone services. -/
def reconcileInit (env : Env) (inst : CinderAPIInstance) : Out :=
  let calls0 := [Call.logInfo "Reconciling Service init",
    Call.exposeEndpoints "/v2/%(project_id)s"]
  let e2 := env.exposeEndpoints v2EndpointData
  match e2.error with
  | some e => ⟨e2.result, some e, inst, calls0⟩
  | none =>
  if e2.result = ({} : CtrlResult) then
    let eps2 :=
      some (mapSet (inst.status.apiEndpoints.getD []) ServiceNameV2 e2.endpoints)
    let inst1 :=
      { inst with status := { inst.status with apiEndpoints := eps2 } }
    let calls1 := calls0 ++ [Call.exposeEndpoints "/v3/%(project_id)s"]
    let e3 := env.exposeEndpoints v3EndpointData
    match e3.error with
    | some e => ⟨e3.result, some e, inst1, calls1⟩
    | none =>
    if e3.result = ({} : CtrlResult) then
      let eps3 :=
        some (mapSet (inst1.status.apiEndpoints.getD []) ServiceNameV3
          e3.endpoints)
      let inst2 :=
        { inst1 with status := { inst1.status with apiEndpoints := eps3 } }
      let calls2 := calls1 ++ [Call.getSecret inst2.spec.secret]
      match env.getSecretInit inst2.spec.secret with
      | Except.error GoError.notFound =>
        ⟨{ requeueAfterSeconds := 10 },
         some (GoError.err
           ("OpenStack secret " ++ inst2.spec.secret ++ " not found")),
         inst2, calls2⟩
      | Except.error e => ⟨{}, some e, inst2, calls2⟩
      | Except.ok _ =>
        let inst3 :=
          if inst2.status.serviceIDs.isNone then
            { inst2 with status :=
              { inst2.status with serviceIDs := some [] } }
          else inst2
        let r := createKeystoneServices env inst3 keystoneServices
        match r.error with
        | some e => ⟨r.result, some e, r.inst, calls2 ++ r.calls⟩
        | none =>
          if r.result = ({} : CtrlResult) then
            ⟨{}, none, r.inst,
             calls2 ++ r.calls ++
               [Call.logInfo "Reconciled Service init successfully"]⟩
          else ⟨r.result, none, r.inst, calls2 ++ r.calls⟩
    else ⟨e3.result, none, inst1, calls1⟩
  else ⟨e2.result, none, inst, calls0⟩

/-- Embedding of `reconcileUpdate`: a named no-op stage. -/
def reconcileUpdate (inst : CinderAPIInstance) : Out :=
  ⟨{}, none, inst,
   [Call.logInfo "Reconciling Service update",
    Call.logInfo "Reconciled Service update successfully"]⟩

/-- Embedding of `reconcileUpgrade`: a named no-op stage. -/
def reconcileUpgrade (inst : CinderAPIInstance) : Out :=
  ⟨{}, none, inst,
   [Call.logInfo "Reconciling Service upgrade",
    Call.logInfo "Reconciled Service upgrade successfully"]⟩

/-- Embedding of `reconcileNormal`: the sequential fail-fast pipeline of
the normal path. -/
def reconcileNormal (env : Env) (inst0 : CinderAPIInstance) : Out :=
  let inst :=
    { inst0 with finalizers := addFinalizer inst0.finalizers FinalizerName }
  let calls := [Call.logInfo "Reconciling Service", Call.updateResource]
  match env.updateResource inst with
  | some e => ⟨{}, some e, inst, calls⟩
  | none =>
  let calls := calls ++ [Call.getSecret inst.spec.secret]
  match env.getSecret inst.spec.secret with
  | Except.error GoError.notFound =>
    ⟨{ requeueAfterSeconds := 10 },
     some (GoError.err ("OpenStack secret " ++ inst.spec.secret ++ " not found")),
     inst, calls⟩
  | Except.error e => ⟨{}, some e, inst, calls⟩
  | Except.ok secretHash =>
  let configMapVars : List (String × String) :=
    [(inst.spec.secret, secretHash)]
  let g := generateServiceConfigMaps env inst
  let calls := calls ++ g.calls
  let configMapVars := configMapVars ++ g.vars
  match g.error with
  | some e => ⟨{}, some e, inst, calls⟩
  | none =>
  let parentCinderName := GetOwningCinderName inst
  let cmNames := [parentCinderName ++ "-scripts",
    parentCinderName ++ "-config-data"]
  let calls := calls ++ [Call.getConfigMaps cmNames]
  match env.getConfigMaps cmNames with
  | Except.error GoError.notFound =>
    ⟨{ requeueAfterSeconds := 10 },
     some (GoError.err
       ("Could not find all config maps for parent Cinder CR "
         ++ parentCinderName)),
     inst, calls⟩
  | Except.error e => ⟨{}, some e, inst, calls⟩
  | Except.ok cmVars =>
  let configMapVars := configMapVars ++ cmVars
  let hres := createHashOfInputHashes env inst configMapVars
  let calls := calls ++ hres.calls
  match hres.error with
  | some e => ⟨{}, some e, hres.inst, calls⟩
  | none =>
  let inputHash := hres.hash
  let iout := reconcileInit env hres.inst
  let calls := calls ++ iout.calls
  match iout.error with
  | some e => ⟨iout.result, some e, iout.inst, calls⟩
  | none =>
  if iout.result = ({} : CtrlResult) then
    let uout := reconcileUpdate iout.inst
    let calls := calls ++ uout.calls
    match uout.error with
    | some e => ⟨uout.result, some e, uout.inst, calls⟩
    | none =>
    if uout.result = ({} : CtrlResult) then
      let gout := reconcileUpgrade uout.inst
      let calls := calls ++ gout.calls
      match gout.error with
      | some e => ⟨gout.result, some e, gout.inst, calls⟩
      | none =>
      if gout.result = ({} : CtrlResult) then
        let inst := gout.inst
        let calls := calls ++ [Call.deplCreateOrPatch]
        let d := env.deplCreateOrPatch inputHash
        match d.error with
        | some e => ⟨d.result, some e, inst, calls⟩
        | none =>
          if d.result = ({} : CtrlResult) then
            let inst' :=
              { inst with status :=
                { inst.status with readyCount := d.readyReplicas } }
            ⟨{}, none, inst',
             calls ++ [Call.logInfo "Reconciled Service successfully"]⟩
          else ⟨d.result, none, inst, calls⟩
      else ⟨gout.result, none, gout.inst, calls⟩
    else ⟨uout.result, none, uout.inst, calls⟩
  else ⟨iout.result, none, iout.inst, calls⟩

/-- Outcome of the `Reconcile` entrypoint: when the fetch fails there is
no instance to report. -/
structure RecOut where
  result : CtrlResult
  error : Option GoError
  inst : Option CinderAPIInstance
  calls : List Call
deriving DecidableEq, Repr

/-- Embedding of `Reconcile`: fetch the instance (not-found terminates
the pass silently), initialize the status sub-maps, and dispatch to the
delete or the normal path. The deferred status merge-patch only persists
the status already computed and swallows its own errors; it issues no
further collaborator call modelled here, so it is not represented. The
`helper.NewHelper` construction is assumed to succeed. -/
def Reconcile (env : Env) : RecOut :=
  match env.getInstance with
  | Except.error GoError.notFound => ⟨{}, none, none, []⟩
  | Except.error e => ⟨{}, some e, none, []⟩
  | Except.ok inst0 =>
    let inst := { inst0 with status := initStatus inst0.status }
    if inst.deletionTimestampSet then
      let o := reconcileDelete env inst
      ⟨o.result, o.error, some o.inst, o.calls⟩
    else
      let o := reconcileNormal env inst
      ⟨o.result, o.error, some o.inst, o.calls⟩

/-! ### Concrete sample data for witnesses -/

/-- A TLS configuration with both endpoints disabled and no CA bundle. -/
def sampleTLSOff : TLSSpec :=
  { api :=
      { public := { enabled := false, toService := Except.ok ⟨"pub-certs"⟩ }
        internal := { enabled := false, toService := Except.ok ⟨"int-certs"⟩ } }
    caBundleSecretName := "" }

/-- A plain declared spec: debug off, TLS off. -/
def sampleSpec : CinderAPISpec :=
  { debug := ⟨false⟩
    tls := sampleTLSOff
    extraMounts := []
    replicas := some 1
    containerImage := "img"
    resources := "res"
    nodeSelector := []
    serviceAccount := "cinder-sa"
    secret := "osp-secret"
    serviceUser := "cinder"
    passwordSelectors := ⟨"CinderPassword"⟩
    customServiceConfig := ""
    defaultConfigOverwrite := [] }

/-- A fresh status: all four sub-maps nil. -/
def sampleStatus : CinderAPIStatus :=
  { conditions := none, hash := none, apiEndpoints := none,
    serviceIDs := none, readyCount := 0 }

/-- A plain declared resource. -/
def sampleInstance : CinderAPIInstance :=
  { name := "cinder-api-0", ns := "openstack", kind := "CinderAPI",
    deletionTimestampSet := false, finalizers := [],
    owningCinderName := "cinder", spec := sampleSpec, status := sampleStatus }

/-- Fallback container for witness extraction. -/
def dummyContainer : Container :=
  ⟨"", [], [], "", 0, [], [], "", none, none⟩

/-- Fallback pod spec for witness extraction. -/
def dummyPodSpec : PodSpec := ⟨"", [], "", [], []⟩

/-- Fallback StatefulSet for witness extraction. -/
def dummySts : StatefulSetObj := ⟨"", "", [], [], none, [], [], dummyPodSpec⟩

/-- Success value of an `Except`, with fallback. -/
def exceptOkD {ε α : Type} (x : Except ε α) (d : α) : α :=
  match x with
  | Except.ok v => v
  | Except.error _ => d

/-- Whether an `Except` holds a success value. -/
def exceptIsOk {ε α : Type} : Except ε α → Bool
  | Except.ok _ => true
  | Except.error _ => false

/-- Sample resource with public transport security enabled. -/
def c3Inst : CinderAPIInstance :=
  { sampleInstance with spec :=
    { sampleSpec with tls :=
      { sampleTLSOff with api :=
        { public := { enabled := true, toService := Except.ok ⟨"pub-certs"⟩ }
          internal :=
            { enabled := false, toService := Except.ok ⟨"int-certs"⟩ } } } } }

/-- The StatefulSet rendered for `c3Inst`. -/
def c3Sts : StatefulSetObj := exceptOkD (StatefulSet c3Inst "h" [] []) dummySts

/-- The service container rendered for `c3Inst`. -/
def c3Api : Container := (c3Sts.podSpec.containers.get? 1).getD dummyContainer

/-- The StatefulSet rendered for `sampleInstance`. -/
def c4Sts : StatefulSetObj :=
  exceptOkD (StatefulSet sampleInstance "h" [] []) dummySts

/-- The service container rendered for `sampleInstance`. -/
def c4Api : Container := (c4Sts.podSpec.containers.get? 1).getD dummyContainer

/-- A benign collaborator environment: every call succeeds. -/
def sampleEnv : Env :=
  { getInstance := Except.ok sampleInstance
    updateResource := fun _ => none
    statusUpdate := fun _ => none
    getSecret := fun _ => Except.ok "secret-hash"
    getSecretInit := fun _ => Except.ok "secret-hash"
    ensureConfigMaps := fun _ => Except.ok [("cinder-api-0-config-data", "cmh")]
    getConfigMaps := fun _ => Except.ok [("parent-cm", "pch")]
    objectHash := fun _ => Except.ok "input-hash-1"
    exposeEndpoints := fun _ =>
      ⟨[("admin", "http://a"), ("public", "http://p"), ("internal", "http://i")],
       {}, none⟩
    ksCreateOrPatch := fun _ => ⟨{}, none, "service-id"⟩
    ksDelete := fun _ => none
    deplCreateOrPatch := fun _ => ⟨{}, none, 1⟩ }

/-- Environment in which the credentials secret is missing. -/
def c5Env : Env :=
  { sampleEnv with getSecret := fun _ => Except.error GoError.notFound }

/-- Environment in which the second secret fetch finds nothing. -/
def c10Env : Env :=
  { sampleEnv with getSecretInit := fun _ => Except.error GoError.notFound }

/-- A sample resource carrying empty (non-nil) recorded endpoint data
and a deletion timestamp. -/
def c8Inst : CinderAPIInstance :=
  { sampleInstance with
    deletionTimestampSet := true
    status := { sampleStatus with apiEndpoints := some [] } }

/-- Environment whose config-map ensurer fails. -/
def c2Env : Env :=
  { sampleEnv with
    ensureConfigMaps := fun _ => Except.error (GoError.err "ensure failed") }

/-- A resource marked for deletion whose status carries no endpoint data
at all (`Status.APIEndpoints` nil). -/
def c1Inst : CinderAPIInstance :=
  { sampleInstance with deletionTimestampSet := true }

/-- Environment serving `c1Inst`: the fetch succeeds and every
collaborator call succeeds. -/
def c1Env : Env := { sampleEnv with getInstance := Except.ok c1Inst }

/-! ## Theorems -/

/-- Helper: on success, the builder's second container is the service
container; its args and probes are determined by the debug flag and the
public TLS flag alone. -/
theorem statefulSet_api_container (inst : CinderAPIInstance)
    (cfg : String) (lbl ann : List (String × String)) (sts : StatefulSetObj)
    (hok : StatefulSet inst cfg lbl ann = Except.ok sts) :
    ∃ vm : List VolumeMount,
      sts.podSpec.containers.get? 1 = some
        { name := ComponentName
          command := ["/bin/bash"]
          args := if inst.spec.debug.service then ["-c", DebugCommand]
            else ["-c", ServiceCommand]
          image := inst.spec.containerImage
          runAsUser := 0
          env := [("KOLLA_CONFIG_STRATEGY", "COPY_ALWAYS"), ("CONFIG_HASH", cfg)]
          volumeMounts := vm
          resources := inst.spec.resources
          readinessProbe := some (if inst.spec.debug.service then
              { timeoutSeconds := 5, periodSeconds := 5, initialDelaySeconds := 5,
                exec := some ["/bin/true"], httpGet := none }
            else
              { timeoutSeconds := 5, periodSeconds := 5, initialDelaySeconds := 5,
                exec := none,
                httpGet := some { path := "/healthcheck",
                                  port := CinderPublicPort,
                                  scheme := if inst.spec.tls.api.public.enabled
                                    then URIScheme.https
                                    else URIScheme.default } })
          livenessProbe := some (if inst.spec.debug.service then
              { timeoutSeconds := 5, periodSeconds := 3, initialDelaySeconds := 5,
                exec := some ["/bin/true"], httpGet := none }
            else
              { timeoutSeconds := 5, periodSeconds := 3, initialDelaySeconds := 5,
                exec := none,
                httpGet := some { path := "/healthcheck",
                                  port := CinderPublicPort,
                                  scheme := if inst.spec.tls.api.public.enabled
                                    then URIScheme.https
                                    else URIScheme.default } }) } := by
  unfold StatefulSet at hok
  cases hdbg : inst.spec.debug.service <;>
    cases hie : inst.spec.tls.api.internal.enabled <;>
    cases hpe : inst.spec.tls.api.public.enabled <;>
    cases hit : inst.spec.tls.api.internal.toService <;>
    cases hpt : inst.spec.tls.api.public.toService <;>
    simp only [hdbg, hie, hpe, hit, hpt, Bind.bind, Except.bind,
      Bool.false_eq_true, if_false, if_true, reduceIte] at hok <;>
    (try cases hok) <;>
    (simp only [hdbg, hie, hpe, Bool.false_eq_true, Bool.true_eq_false,
       if_true, if_false, ite_true, ite_false, reduceIte];
     exact ⟨_, rfl⟩)

/-- C3: for every resource, whenever the rendered service container
carries HTTP probes, both the liveness and the readiness probe scheme is
HTTPS exactly when transport security is enabled for the public
endpoint, and is left at the default otherwise — regardless of the
internal endpoint's transport-security setting (the statement quantifies
over it). -/
theorem c3_probe_scheme_follows_public_tls
    (inst : CinderAPIInstance) (cfg : String)
    (lbl ann : List (String × String)) (sts : StatefulSetObj)
    (api : Container)
    (hok : StatefulSet inst cfg lbl ann = Except.ok sts)
    (hapi : sts.podSpec.containers.get? 1 = some api) :
    (∀ g, api.livenessProbe.bind Probe.httpGet = some g →
      g.scheme = if inst.spec.tls.api.public.enabled then URIScheme.https
        else URIScheme.default)
    ∧ (∀ g, api.readinessProbe.bind Probe.httpGet = some g →
      g.scheme = if inst.spec.tls.api.public.enabled then URIScheme.https
        else URIScheme.default) := by
  obtain ⟨vm, h⟩ := statefulSet_api_container inst cfg lbl ann sts hok
  rw [hapi, Option.some_inj] at h
  subst h
  cases hdbg : inst.spec.debug.service
  case false =>
    refine ⟨fun g hg => ?_, fun g hg => ?_⟩ <;>
      (simp [hdbg] at hg; subst hg; simp [hdbg])
  case true =>
    refine ⟨fun g hg => ?_, fun g hg => ?_⟩ <;> simp [hdbg] at hg

/-- C4: with the debug flag off the rendered probes are HTTP GET health
checks on the fixed public port (no exec action); with the debug flag on
both probes are the trivial always-succeed exec check and no HTTP probe
is set. -/
theorem c4_probe_mode_follows_debug_flag
    (inst : CinderAPIInstance) (cfg : String)
    (lbl ann : List (String × String)) (sts : StatefulSetObj)
    (api : Container)
    (hok : StatefulSet inst cfg lbl ann = Except.ok sts)
    (hapi : sts.podSpec.containers.get? 1 = some api) :
    (inst.spec.debug.service = false →
      api.livenessProbe.bind Probe.exec = none ∧
      api.readinessProbe.bind Probe.exec = none ∧
      (api.livenessProbe.bind Probe.httpGet).map (fun g => (g.path, g.port))
        = some ("/healthcheck", CinderPublicPort) ∧
      (api.readinessProbe.bind Probe.httpGet).map (fun g => (g.path, g.port))
        = some ("/healthcheck", CinderPublicPort))
    ∧ (inst.spec.debug.service = true →
      api.livenessProbe.bind Probe.exec = some ["/bin/true"] ∧
      api.readinessProbe.bind Probe.exec = some ["/bin/true"] ∧
      api.livenessProbe.bind Probe.httpGet = none ∧
      api.readinessProbe.bind Probe.httpGet = none) := by
  obtain ⟨vm, h⟩ := statefulSet_api_container inst cfg lbl ann sts hok
  rw [hapi, Option.some_inj] at h
  subst h
  constructor <;> intro hdbg <;> simp [hdbg]

/-- Witness for C3: at a concrete resource with public TLS enabled and
debug off, the builder succeeds, the service container carries an HTTP
probe, and its scheme is the upgraded one the theorem predicts. -/
theorem c3_witness :
    StatefulSet c3Inst "h" [] [] = Except.ok c3Sts ∧
    c3Sts.podSpec.containers.get? 1 = some c3Api ∧
    (HTTPGetAction.mk "/healthcheck" CinderPublicPort URIScheme.https).scheme
      = (if c3Inst.spec.tls.api.public.enabled then URIScheme.https
        else URIScheme.default) :=
  ⟨rfl, rfl,
   (c3_probe_scheme_follows_public_tls c3Inst "h" [] [] c3Sts c3Api rfl rfl).1
     ⟨"/healthcheck", CinderPublicPort, URIScheme.https⟩ rfl⟩

/-- Witness for C4: at a concrete debug-off resource the builder
succeeds and the rendered probes target the fixed public port. -/
theorem c4_witness :
    StatefulSet sampleInstance "h" [] [] = Except.ok c4Sts ∧
    c4Sts.podSpec.containers.get? 1 = some c4Api ∧
    (c4Api.livenessProbe.bind Probe.httpGet).map (fun g => (g.path, g.port))
      = some ("/healthcheck", CinderPublicPort) :=
  ⟨rfl, rfl,
   ((c4_probe_mode_follows_debug_flag sampleInstance "h" [] [] c4Sts c4Api
      rfl rfl).1 rfl).2.2.1⟩

/-- C6: the builder returns a non-nil error only by propagating a
`ToService` failure of a TLS-enabled endpoint, and whenever no enabled
endpoint's TLS rendering fails it returns a StatefulSet with nil
error. -/
theorem c6_error_only_from_tls_rendering
    (inst : CinderAPIInstance) (cfg : String)
    (lbl ann : List (String × String)) :
    (∀ e, StatefulSet inst cfg lbl ann = Except.error e →
      (inst.spec.tls.api.internal.enabled = true ∧
        inst.spec.tls.api.internal.toService = Except.error e) ∨
      (inst.spec.tls.api.public.enabled = true ∧
        inst.spec.tls.api.public.toService = Except.error e))
    ∧ ((inst.spec.tls.api.internal.enabled = true →
        exceptIsOk inst.spec.tls.api.internal.toService = true) →
      (inst.spec.tls.api.public.enabled = true →
        exceptIsOk inst.spec.tls.api.public.toService = true) →
      ∃ sts, StatefulSet inst cfg lbl ann = Except.ok sts) := by
  unfold StatefulSet
  cases hdbg : inst.spec.debug.service <;>
    cases hie : inst.spec.tls.api.internal.enabled <;>
    cases hpe : inst.spec.tls.api.public.enabled <;>
    cases hit : inst.spec.tls.api.internal.toService <;>
    cases hpt : inst.spec.tls.api.public.toService <;>
    simp [hdbg, hie, hpe, hit, hpt, exceptIsOk, Bind.bind, Except.bind]

/-- Witness for C6 at the plain sample resource: no endpoint is
TLS-enabled, so the builder succeeds with the rendered object. -/
theorem c6_witness :
    StatefulSet sampleInstance "h" [] [] = Except.ok c4Sts := by
  obtain ⟨sts, hsts⟩ :=
    (c6_error_only_from_tls_rendering sampleInstance "h" [] []).2
      (fun h => by simp [sampleInstance, sampleSpec, sampleTLSOff] at h)
      (fun h => by simp [sampleInstance, sampleSpec, sampleTLSOff] at h)
  unfold c4Sts exceptOkD
  rw [hsts]

/-- Helper: the four `initStatus` equations — each sub-map becomes the
empty map exactly when nil and is untouched otherwise; the ready count
is preserved. -/
theorem initStatus_fields (st : CinderAPIStatus) :
    (initStatus st).conditions = some (st.conditions.getD []) ∧
    (initStatus st).hash = some (st.hash.getD []) ∧
    (initStatus st).apiEndpoints = some (st.apiEndpoints.getD []) ∧
    (initStatus st).serviceIDs = some (st.serviceIDs.getD []) ∧
    (initStatus st).readyCount = st.readyCount := by
  obtain ⟨c, hsh, a, s, r⟩ := st
  cases c <;> cases hsh <;> cases a <;> cases s <;> simp [initStatus]

/-- C9: on every Reconcile pass whose fetch succeeds, each of the four
status sub-maps is set to empty exactly when it is nil and left
untouched when present (so later reads in the pass see non-nil maps),
and the pass dispatches to the delete or normal path with exactly that
initialized instance. -/
theorem c9_status_maps_initialized (env : Env) (inst : CinderAPIInstance)
    (hget : env.getInstance = Except.ok inst) :
    ((initStatus inst.status).conditions = some (inst.status.conditions.getD []) ∧
     (initStatus inst.status).hash = some (inst.status.hash.getD []) ∧
     (initStatus inst.status).apiEndpoints
        = some (inst.status.apiEndpoints.getD []) ∧
     (initStatus inst.status).serviceIDs
        = some (inst.status.serviceIDs.getD []) ∧
     (initStatus inst.status).readyCount = inst.status.readyCount) ∧
    Reconcile env =
      (if inst.deletionTimestampSet then
        let o := reconcileDelete env { inst with status := initStatus inst.status }
        ⟨o.result, o.error, some o.inst, o.calls⟩
      else
        let o := reconcileNormal env { inst with status := initStatus inst.status }
        ⟨o.result, o.error, some o.inst, o.calls⟩) := by
  refine ⟨initStatus_fields inst.status, ?_⟩
  simp [Reconcile, hget]

/-- Witness for C9 at a concrete pass: the nil hash map of the sample
instance is initialized to the empty map. -/
theorem c9_witness :
    (initStatus sampleInstance.status).hash
      = some (sampleInstance.status.hash.getD []) :=
  (c9_status_maps_initialized sampleEnv sampleInstance rfl).1.2.1

/-- C7: `createHashOfInputHashes` aggregates the recorded input hashes;
when the stored value under the fixed key already equals the new hash it
returns it unchanged, mutating nothing and issuing no status update;
when it differs (or is absent) it stores the new value in `Status.Hash`
and immediately issues a status update. -/
theorem c7_input_hash_update_iff_changed (env : Env)
    (inst : CinderAPIInstance) (vars : List (String × String)) (h : String)
    (hh : env.objectHash (mergeEnvs vars) = Except.ok h) :
    (mapGet (inst.status.hash.getD []) InputHashName = some h →
      createHashOfInputHashes env inst vars = ⟨h, none, inst, []⟩) ∧
    (mapGet (inst.status.hash.getD []) InputHashName ≠ some h →
      (createHashOfInputHashes env inst vars).inst.status.hash
          = some (mapSet (inst.status.hash.getD []) InputHashName h) ∧
      Call.statusUpdate ∈ (createHashOfInputHashes env inst vars).calls ∧
      (createHashOfInputHashes env inst vars).hash = h) := by
  constructor
  · intro hprev
    simp [createHashOfInputHashes, hh, setHash, hprev]
  · intro hprev
    cases hcur : mapGet (inst.status.hash.getD []) InputHashName with
    | none =>
      simp only [createHashOfInputHashes, hh, setHash, hcur]
      split <;> (try split) <;> simp_all
    | some cur =>
      have hne : ¬cur = h := fun hc => hprev (hc ▸ hcur)
      simp only [createHashOfInputHashes, hh, setHash, hcur, hne, if_false]
      split <;> (try split) <;> simp_all

/-- Witness for C7: at a concrete pass whose stored input hash is absent,
the new value is stored and a status update issued. -/
theorem c7_witness :
    (createHashOfInputHashes sampleEnv sampleInstance
        [("osp-secret", "secret-hash")]).inst.status.hash
      = some [(InputHashName, "input-hash-1")] ∧
    Call.statusUpdate ∈ (createHashOfInputHashes sampleEnv sampleInstance
        [("osp-secret", "secret-hash")]).calls :=
  ⟨((c7_input_hash_update_iff_changed sampleEnv sampleInstance
      [("osp-secret", "secret-hash")] "input-hash-1" rfl).2
        (by decide)).1,
   ((c7_input_hash_update_iff_changed sampleEnv sampleInstance
      [("osp-secret", "secret-hash")] "input-hash-1" rfl).2
        (by decide)).2.1⟩

/-- C5: when the referenced credentials secret is absent, the
normal-path handler stops right after the secret fetch, returning a
requeue of exactly 10 seconds together with an error naming the secret;
the trace shows no subsequent pipeline step was executed. -/
theorem c5_missing_secret_requeues_ten_seconds (env : Env)
    (inst : CinderAPIInstance)
    (hupd : env.updateResource
      { inst with finalizers := addFinalizer inst.finalizers FinalizerName }
        = none)
    (hsec : env.getSecret inst.spec.secret = Except.error GoError.notFound) :
    reconcileNormal env inst =
      ⟨{ requeueAfterSeconds := 10 },
       some (GoError.err
         ("OpenStack secret " ++ inst.spec.secret ++ " not found")),
       { inst with finalizers := addFinalizer inst.finalizers FinalizerName },
       [Call.logInfo "Reconciling Service", Call.updateResource,
        Call.getSecret inst.spec.secret]⟩ := by
  simp [reconcileNormal, hupd, hsec]

/-- Witness for C5 at a concrete pass with the secret absent. -/
theorem c5_witness :
    reconcileNormal c5Env sampleInstance =
      ⟨{ requeueAfterSeconds := 10 },
       some (GoError.err "OpenStack secret osp-secret not found"),
       { sampleInstance with finalizers := [FinalizerName] },
       [Call.logInfo "Reconciling Service", Call.updateResource,
        Call.getSecret "osp-secret"]⟩ :=
  c5_missing_secret_requeues_ten_seconds c5Env sampleInstance rfl rfl

/-- C10: in `reconcileInit`, after both endpoint exposures succeed the
credentials secret is fetched again; if it is absent at that point the
handler returns a 10-second delayed retry naming the secret, with the
trace showing no identity-service registration call was made. -/
theorem c10_init_secret_recheck_blocks_registration (env : Env)
    (inst : CinderAPIInstance) (eps2 eps3 : List (String × String))
    (hv2 : env.exposeEndpoints v2EndpointData
      = ⟨eps2, ({} : CtrlResult), none⟩)
    (hv3 : env.exposeEndpoints v3EndpointData
      = ⟨eps3, ({} : CtrlResult), none⟩)
    (hsec : env.getSecretInit inst.spec.secret
      = Except.error GoError.notFound) :
    reconcileInit env inst =
      ⟨{ requeueAfterSeconds := 10 },
       some (GoError.err
         ("OpenStack secret " ++ inst.spec.secret ++ " not found")),
       { inst with status := { inst.status with
          apiEndpoints :=
            some (mapSet
              (mapSet (inst.status.apiEndpoints.getD []) ServiceNameV2 eps2)
              ServiceNameV3 eps3) } },
       [Call.logInfo "Reconciling Service init",
        Call.exposeEndpoints "/v2/%(project_id)s",
        Call.exposeEndpoints "/v3/%(project_id)s",
        Call.getSecret inst.spec.secret]⟩ := by
  simp [reconcileInit, hv2, hv3, hsec]

/-- Witness for C10 at a concrete pass: exposures succeed, the re-check
fails, and the handler requeues without registering anything. -/
theorem c10_witness :
    reconcileInit c10Env sampleInstance =
      ⟨{ requeueAfterSeconds := 10 },
       some (GoError.err "OpenStack secret osp-secret not found"),
       { sampleInstance with status := { sampleStatus with
          apiEndpoints :=
            some (mapSet
              (mapSet [] ServiceNameV2
                [("admin", "http://a"), ("public", "http://p"),
                 ("internal", "http://i")])
              ServiceNameV3
              [("admin", "http://a"), ("public", "http://p"),
               ("internal", "http://i")]) } },
       [Call.logInfo "Reconciling Service init",
        Call.exposeEndpoints "/v2/%(project_id)s",
        Call.exposeEndpoints "/v3/%(project_id)s",
        Call.getSecret "osp-secret"]⟩ :=
  c10_init_secret_recheck_blocks_registration c10Env sampleInstance
    [("admin", "http://a"), ("public", "http://p"), ("internal", "http://i")]
    [("admin", "http://a"), ("public", "http://p"), ("internal", "http://i")]
    rfl rfl rfl

/-- C8: in the delete path (with non-nil recorded endpoint data), a
failing deregistration is returned immediately — the instance is
untouched, so the finalizer stays, and no persist is attempted; only
after both deregistrations succeed is the finalizer removed and the
resource persisted, and a not-found error on that persist yields nil. -/
theorem c8_finalizer_removed_after_deregistration (env : Env)
    (inst : CinderAPIInstance)
    (m : List (String × List (String × String)))
    (hne : inst.status.apiEndpoints = some m) :
    (∀ e, env.ksDelete (ksServiceSpec inst ServiceTypeV2 ServiceNameV2
        "Cinder V2 Service") = some e →
      reconcileDelete env inst =
        ⟨{}, some e, inst,
         [Call.logInfo "Reconciling Service delete",
          Call.ksDelete ServiceNameV2]⟩) ∧
    (∀ e, env.ksDelete (ksServiceSpec inst ServiceTypeV2 ServiceNameV2
        "Cinder V2 Service") = none →
      env.ksDelete (ksServiceSpec inst ServiceTypeV3 ServiceNameV3
        "Cinder V3 Service") = some e →
      reconcileDelete env inst =
        ⟨{}, some e, inst,
         [Call.logInfo "Reconciling Service delete",
          Call.ksDelete ServiceNameV2, Call.ksDelete ServiceNameV3]⟩) ∧
    (env.ksDelete (ksServiceSpec inst ServiceTypeV2 ServiceNameV2
        "Cinder V2 Service") = none →
      env.ksDelete (ksServiceSpec inst ServiceTypeV3 ServiceNameV3
        "Cinder V3 Service") = none →
      (reconcileDelete env inst).inst =
        { inst with finalizers :=
            removeFinalizer inst.finalizers FinalizerName } ∧
      (reconcileDelete env inst).calls =
        [Call.logInfo "Reconciling Service delete",
         Call.ksDelete ServiceNameV2, Call.ksDelete ServiceNameV3,
         Call.logInfo "Reconciled Service delete successfully",
         Call.updateResource] ∧
      ((env.updateResource
          { inst with finalizers := removeFinalizer inst.finalizers FinalizerName }
          = some GoError.notFound ∨
        env.updateResource
          { inst with finalizers := removeFinalizer inst.finalizers FinalizerName }
          = none) →
        (reconcileDelete env inst).error = none)) := by
  refine ⟨?_, ?_, ?_⟩
  · intro e h2
    simp [reconcileDelete, hne, deleteKeystoneServices, keystoneServices, h2]
  · intro e h2 h3
    simp [reconcileDelete, hne, deleteKeystoneServices, keystoneServices,
      h2, h3]
  · intro h2 h3
    simp only [reconcileDelete, hne, deleteKeystoneServices,
      keystoneServices, h2, h3]
    refine ⟨by split <;> rfl, by split <;> rfl, ?_⟩
    rintro (hu | hu) <;> simp [hu]

/-- Witness for C8: both deregistrations succeed, the finalizer is
removed and the persist succeeds with nil error. -/
theorem c8_witness :
    (reconcileDelete sampleEnv c8Inst).inst =
      { c8Inst with finalizers :=
          removeFinalizer c8Inst.finalizers FinalizerName } ∧
    (reconcileDelete sampleEnv c8Inst).error = none :=
  ⟨((c8_finalizer_removed_after_deregistration sampleEnv c8Inst [] rfl).2.2
      rfl rfl).1,
   ((c8_finalizer_removed_after_deregistration sampleEnv c8Inst [] rfl).2.2
      rfl rfl).2.2 (Or.inr rfl)⟩

/-- Helper: `generateServiceConfigMaps` returns nil error in both
branches and its whole trace is the single ensurer call — in particular
it contains no log line. -/
theorem generateServiceConfigMaps_nil_error (env : Env)
    (i : CinderAPIInstance) :
    (generateServiceConfigMaps env i).error = none ∧
    (generateServiceConfigMaps env i).calls = [Call.ensureConfigMaps] := by
  unfold generateServiceConfigMaps
  cases h : env.ensureConfigMaps (serviceConfigTemplates i) <;> simp [h]

/-- C2 counterexample: at a concrete input whose config-map ensurer
fails, `generateServiceConfigMaps` returns nil and its entire trace is
the single ensurer call — no informational log line is emitted, contrary
to the claim that the failure is logged as informational. -/
theorem c2_counterexample :
    generateServiceConfigMaps c2Env sampleInstance =
      ⟨none, [], [Call.ensureConfigMaps]⟩ := rfl

/-- C2 (amended): on every input on which the config-map ensurer fails,
`generateServiceConfigMaps` returns nil having emitted no log line (the
failure is swallowed silently), and the normal-path pipeline continues
to the subsequent parent config-map step rather than aborting. -/
theorem c2_materialization_failure_swallowed (env : Env)
    (inst : CinderAPIInstance) (e : GoError) (sh : String)
    (hupd : env.updateResource
      { inst with finalizers := addFinalizer inst.finalizers FinalizerName }
        = none)
    (hsec : env.getSecret inst.spec.secret = Except.ok sh)
    (hfail : env.ensureConfigMaps (serviceConfigTemplates
      { inst with finalizers := addFinalizer inst.finalizers FinalizerName })
        = Except.error e) :
    generateServiceConfigMaps env
      { inst with finalizers := addFinalizer inst.finalizers FinalizerName }
        = ⟨none, [], [Call.ensureConfigMaps]⟩ ∧
    Call.getConfigMaps [GetOwningCinderName inst ++ "-scripts",
        GetOwningCinderName inst ++ "-config-data"]
      ∈ (reconcileNormal env inst).calls := by
  have hgen : generateServiceConfigMaps env
      { inst with finalizers := addFinalizer inst.finalizers FinalizerName }
        = ⟨none, [], [Call.ensureConfigMaps]⟩ := by
    simp [generateServiceConfigMaps, hfail]
  refine ⟨hgen, ?_⟩
  simp only [reconcileNormal, hupd, hsec, hgen]
  repeat' split
  all_goals simp [reconcileUpdate, reconcileUpgrade, GetOwningCinderName]

/-- Witness for C2's amended theorem at the concrete failing-ensurer
environment. -/
theorem c2_witness :
    Call.getConfigMaps ["cinder-scripts", "cinder-config-data"]
      ∈ (reconcileNormal c2Env sampleInstance).calls :=
  (c2_materialization_failure_swallowed c2Env sampleInstance
    (GoError.err "ensure failed") "secret-hash" rfl rfl rfl).2

/-- C1 counterexample: a Reconcile pass on a deleted resource with no
recorded endpoint data (`Status.APIEndpoints` absent) still issues
identity-service deregistration calls for both facades — `Reconcile`
initializes the nil map to a non-nil empty map before the delete path
tests it for nil, so the deregistration loop always runs. -/
theorem c1_counterexample :
    c1Inst.status.apiEndpoints = none ∧
    Call.ksDelete ServiceNameV2 ∈ (Reconcile c1Env).calls ∧
    Call.ksDelete ServiceNameV3 ∈ (Reconcile c1Env).calls := by
  refine ⟨rfl, ?_, ?_⟩ <;> decide

/-- C1 (amended): on every Reconcile pass over a resource with a
deletion timestamp set — whether its recorded endpoint data is absent or
empty — the delete path issues a deregistration call for the first
facade; when it succeeds the second facade's call follows, and when both
succeed the finalizer is removed (the nil check in the delete path never
fires within a Reconcile pass, because the status maps have just been
initialized to non-nil). -/
theorem c1_reconcile_delete_always_deregisters (env : Env)
    (inst : CinderAPIInstance)
    (hget : env.getInstance = Except.ok inst)
    (hdel : inst.deletionTimestampSet = true) :
    Call.ksDelete ServiceNameV2 ∈ (Reconcile env).calls ∧
    (env.ksDelete (ksServiceSpec { inst with status := initStatus inst.status }
        ServiceTypeV2 ServiceNameV2 "Cinder V2 Service") = none →
      Call.ksDelete ServiceNameV3 ∈ (Reconcile env).calls) ∧
    (env.ksDelete (ksServiceSpec { inst with status := initStatus inst.status }
        ServiceTypeV2 ServiceNameV2 "Cinder V2 Service") = none →
      env.ksDelete (ksServiceSpec { inst with status := initStatus inst.status }
        ServiceTypeV3 ServiceNameV3 "Cinder V3 Service") = none →
      (Reconcile env).inst = some
        { inst with
          status := initStatus inst.status
          finalizers := removeFinalizer inst.finalizers FinalizerName }) := by
  have hA := (initStatus_fields inst.status).2.2.1
  refine ⟨?_, ?_, ?_⟩
  · cases h2 : env.ksDelete (ksServiceSpec
        { inst with status := initStatus inst.status }
        ServiceTypeV2 ServiceNameV2 "Cinder V2 Service") with
    | some e =>
      simp only [hdel] at h2
      simp [Reconcile, hget, hdel, reconcileDelete, hA,
        deleteKeystoneServices, keystoneServices, h2]
    | none =>
      simp only [hdel] at h2
      cases h3 : env.ksDelete (ksServiceSpec
          { inst with status := initStatus inst.status }
          ServiceTypeV3 ServiceNameV3 "Cinder V3 Service") with
      | some e =>
        simp only [hdel] at h3
        simp [Reconcile, hget, hdel, reconcileDelete, hA,
          deleteKeystoneServices, keystoneServices, h2, h3]
      | none =>
        simp only [hdel] at h3
        simp only [Reconcile, hget, hdel, reconcileDelete, hA,
          deleteKeystoneServices, keystoneServices, h2, h3]
        repeat' split
        all_goals simp_all
  · intro h2
    simp only [hdel] at h2
    cases h3 : env.ksDelete (ksServiceSpec
        { inst with status := initStatus inst.status }
        ServiceTypeV3 ServiceNameV3 "Cinder V3 Service") with
    | some e =>
      simp only [hdel] at h3
      simp [Reconcile, hget, hdel, reconcileDelete, hA,
        deleteKeystoneServices, keystoneServices, h2, h3]
    | none =>
      simp only [hdel] at h3
      simp only [Reconcile, hget, hdel, reconcileDelete, hA,
        deleteKeystoneServices, keystoneServices, h2, h3]
      repeat' split
      all_goals simp_all
  · intro h2 h3
    simp only [hdel] at h2 h3
    simp only [Reconcile, hget, hdel, reconcileDelete, hA,
      deleteKeystoneServices, keystoneServices, h2, h3]
    repeat' split
    all_goals simp_all

/-- Witness for C1's amended theorem: at the concrete deleted resource,
both deregistration calls succeed and the finalizer is removed. -/
theorem c1_witness :
    (Reconcile c1Env).inst = some
      { c1Inst with
        status := initStatus c1Inst.status
        finalizers := removeFinalizer c1Inst.finalizers FinalizerName } :=
  (c1_reconcile_delete_always_deregisters c1Env c1Inst rfl rfl).2.2 rfl rfl

end CinderVerify
